import Mathlib

/-!
Verification of the IndexedDB hook (`src/hooks/use-debounce.ts`, the
`useIndexedDB` part), the API client error mapping (`src/lib/api/client.ts`)
and the UI store theme toggle (`src/lib/store/ui-store.ts`) of the
nextjs-frontend-template repository, via a shallow embedding in Lean 4.

The embedding models the `idb` backend as an explicit state (named, versioned
databases holding named object stores of string-keyed records), the
module-level `dbCache` as an association list from cache keys to the cached
open result, and each hook operation (`fetchData`, `save`, `remove`,
`refresh`) as an atomic state transition on the instance `LoadState` and the
backend state.  JavaScript is single threaded and `getDB` performs its
cache check and insertion synchronously before any `await`, so an atomic
transition per call is a faithful model of its concurrency behaviour.
-/

set_option autoImplicit false

namespace Tpl

universe u

/-! ### Association-list helpers (string-keyed finite maps) -/

/-- Lookup in a string-keyed association list. -/
def alookup {α : Type u} (k : String) : List (String × α) → Option α
  | [] => none
  | (k₂, x) :: rest => if k₂ = k then some x else alookup k rest

/-- Update the value bound to `k` in place (no-op when `k` is unbound). -/
def updBind {α : Type u} (k : String) (f : α → α) : List (String × α) → List (String × α)
  | [] => []
  | (k₂, x) :: rest => if k₂ = k then (k₂, f x) :: rest else (k₂, x) :: updBind k f rest

/-- Remove every binding of key `k`. -/
def aerase {α : Type u} (k : String) (l : List (String × α)) : List (String × α) :=
  l.filter (fun p => p.1 ≠ k)

/-- Bind `k` to `v`, replacing any previous binding (IndexedDB `put`). -/
def ainsert {α : Type u} (k : String) (v : α) (l : List (String × α)) : List (String × α) :=
  (k, v) :: aerase k l

/-! ### The idb backend model

`Database` mirrors one IndexedDB database: a version and a collection of
object stores, each an association list from string keys to values.
Connections are handles carrying the identifier allocated at open time and
the name of the database they address. -/

/-- Records of one object store: keys to values of the payload type. -/
abbrev Records (V : Type) := List (String × V)

/-- One named database: its current version and its object stores. -/
structure Database (V : Type) where
  version : Nat
  stores : List (String × Records V)
deriving Repr, DecidableEq

/-- An open connection handle: allocation id plus the database it addresses. -/
structure Conn where
  id : Nat
  dbName : String
deriving Repr, DecidableEq

def exceptDecEq {ε α : Type u} [DecidableEq ε] [DecidableEq α] :
    DecidableEq (Except ε α) := fun a b =>
  match a, b with
  | Except.error e₁, Except.error e₂ =>
      if h : e₁ = e₂ then isTrue (by rw [h]) else isFalse (fun hc => by cases hc; exact h rfl)
  | Except.ok x, Except.ok y =>
      if h : x = y then isTrue (by rw [h]) else isFalse (fun hc => by cases hc; exact h rfl)
  | Except.error _, Except.ok _ => isFalse (fun hc => by cases hc)
  | Except.ok _, Except.error _ => isFalse (fun hc => by cases hc)

instance {ε α : Type u} [DecidableEq ε] [DecidableEq α] : DecidableEq (Except ε α) :=
  exceptDecEq

/-- The backend state: all databases, the module-level `dbCache` (cache key to
the settled outcome of the cached open promise), a log of the underlying
`openDB` invocations as `(databaseName, version)` pairs, and the allocation
counter for connection ids. -/
structure DBEnv (V : Type) where
  databases : List (String × Database V)
  cache : List (String × Except String Conn)
  opens : List (String × Nat)
  nextId : Nat
deriving Repr, DecidableEq

/-- The backend state of a fresh process: nothing opened, empty cache. -/
def emptyEnv {V : Type} : DBEnv V := ⟨[], [], [], 0⟩

/-- `cacheKey` as computed in `getDB`: `` `${dbName}-${version}` ``. -/
def cacheKey (dbName : String) (version : Nat) : String :=
  dbName ++ "-" ++ toString version

/-- The upgrade callback passed to `openDB`: create the object store named
`storeName` when the database does not already contain it. -/
def upgradeRun {V : Type} (storeName : String) (db : Database V) : Database V :=
  if (alookup storeName db.stores).isSome then db
  else { db with stores := (storeName, ([] : Records V)) :: db.stores }

/-- The `idb` `openDB` call: opens `dbName` at `version`, running the upgrade
callback when the database is new or its stored version is lower; rejects with
a `VersionError` when the requested version is lower than the stored one.
Every invocation is logged in `opens` and allocates a fresh connection id. -/
def openDB {V : Type} (dbName : String) (version : Nat) (storeName : String)
    (env : DBEnv V) : Except String Conn × DBEnv V :=
  match alookup dbName env.databases with
  | none =>
      (Except.ok ⟨env.nextId, dbName⟩,
        { env with databases := (dbName, upgradeRun storeName ⟨version, []⟩) :: env.databases,
                   opens := (dbName, version) :: env.opens,
                   nextId := env.nextId + 1 })
  | some db =>
      if version < db.version then
        (Except.error "VersionError", { env with opens := (dbName, version) :: env.opens })
      else if db.version < version then
        (Except.ok ⟨env.nextId, dbName⟩,
          { env with databases := (updBind dbName (fun _ => upgradeRun storeName { db with version := version }) env.databases),
                     opens := (dbName, version) :: env.opens,
                     nextId := env.nextId + 1 })
      else
        (Except.ok ⟨env.nextId, dbName⟩,
          { env with opens := (dbName, version) :: env.opens,
                     nextId := env.nextId + 1 })

/-- `getDB` from `use-debounce.ts`: consult the module cache under
`` `${dbName}-${version}` ``; on a miss, issue one `openDB` (whose upgrade
creates `storeName` if absent) and cache its outcome; on a hit, return the
cached outcome unchanged. -/
def getDB {V : Type} (dbName storeName : String) (version : Nat) (env : DBEnv V) :
    Except String Conn × DBEnv V :=
  match alookup (cacheKey dbName version) env.cache with
  | some r => (r, env)
  | none =>
      ((openDB dbName version storeName env).1,
        { (openDB dbName version storeName env).2 with
            cache := (cacheKey dbName version, (openDB dbName version storeName env).1)
              :: (openDB dbName version storeName env).2.cache })

/-- `db.get(storeName, key)`: resolves the connection's database, then the
store (a missing store is a `NotFoundError`), then looks the key up; a
missing key yields `none` rather than an error. -/
def dbGet {V : Type} (env : DBEnv V) (c : Conn) (storeName key : String) :
    Except String (Option V) :=
  match alookup c.dbName env.databases with
  | none => Except.error "InvalidStateError"
  | some db =>
      match alookup storeName db.stores with
      | none => Except.error "NotFoundError"
      | some recs => Except.ok (alookup key recs)

/-- `db.put(storeName, value, key)`: full replacement of the record under
`key`; fails when the store (or database) does not exist. -/
def dbPut {V : Type} (env : DBEnv V) (c : Conn) (storeName : String) (v : V) (key : String) :
    Except String (DBEnv V) :=
  match alookup c.dbName env.databases with
  | none => Except.error "InvalidStateError"
  | some db =>
      match alookup storeName db.stores with
      | none => Except.error "NotFoundError"
      | some _ =>
          Except.ok { env with databases := (updBind c.dbName (fun db₂ => { db₂ with stores := updBind storeName (fun r => ainsert key v r) db₂.stores }) env.databases) }

/-- `db.delete(storeName, key)`: removes the record under `key` (a no-op on a
missing key); fails when the store (or database) does not exist. -/
def dbDelete {V : Type} (env : DBEnv V) (c : Conn) (storeName key : String) :
    Except String (DBEnv V) :=
  match alookup c.dbName env.databases with
  | none => Except.error "InvalidStateError"
  | some db =>
      match alookup storeName db.stores with
      | none => Except.error "NotFoundError"
      | some _ =>
          Except.ok { env with databases := (updBind c.dbName (fun db₂ => { db₂ with stores := updBind storeName (fun r => aerase key r) db₂.stores }) env.databases) }

/-- Does database `d` of `env` contain an object store named `s`? -/
def hasStoreIn {V : Type} (env : DBEnv V) (d s : String) : Bool :=
  match alookup d env.databases with
  | none => false
  | some db => (alookup s db.stores).isSome

/-! ### The `useIndexedDB` hook layer

One hook instance is configured by `UseIndexedDBOptions` and owns a
`LoadState` (`data` / `isLoading` / `error`, matching the three `useState`
cells).  Each operation of the hook runs to completion as one transition of
`(LoadState, DBEnv)` — faithful to the single-threaded event loop with one
operation in flight per instance.  An operation also yields the settlement of
the promise it returns: `Except.error e` models a rejection (a re-thrown
error), `Except.ok ()` a normal resolution. -/

/-- `UseIndexedDBOptions`: database name, store name, record key and version
(the hook defaults the version to 1 at destructuring time). -/
structure Options where
  dbName : String
  storeName : String
  key : String
  version : Nat
deriving Repr, DecidableEq

/-- The per-instance state triple held in the three `useState` cells. -/
structure LoadState (V : Type) where
  data : Option V
  isLoading : Bool
  error : Option String
deriving Repr, DecidableEq

/-- The initial `useState` values: `data = null`, `isLoading = true`,
`error = null`. -/
def initialLoadState {V : Type} : LoadState V := ⟨none, true, none⟩

/-- Outcome of one hook operation: the new instance state, the new backend
state, and the settlement of the returned promise. -/
structure OpResult (V : Type) where
  state : LoadState V
  env : DBEnv V
  result : Except String Unit
deriving Repr, DecidableEq

/-- The message of the error thrown by `save`/`remove` outside the browser. -/
def browserOnlyMsg : String := "IndexedDB는 브라우저 환경에서만 사용 가능합니다."

/-- `fetchData`: on the server (`typeof window === 'undefined'`) it only
clears `isLoading` and returns; otherwise it sets `isLoading`, clears
`error`, reads the record, stores the value on success, and on failure
records the error without re-throwing (the `catch` block does not throw). -/
def fetchData {V : Type} (hasWindow : Bool) (o : Options) (st : LoadState V)
    (env : DBEnv V) : OpResult V :=
  if hasWindow = false then ⟨{ st with isLoading := false }, env, Except.ok ()⟩
  else
    match getDB o.dbName o.storeName o.version env with
    | (Except.error e, env₂) =>
        ⟨{ st with isLoading := false, error := some e }, env₂, Except.ok ()⟩
    | (Except.ok c, env₂) =>
        match dbGet env₂ c o.storeName o.key with
        | Except.error e =>
            ⟨{ st with isLoading := false, error := some e }, env₂, Except.ok ()⟩
        | Except.ok v =>
            ⟨{ st with data := v, isLoading := false, error := none }, env₂, Except.ok ()⟩

/-- `save`: throws outside the browser; otherwise clears `error`, writes the
value, and only then updates `data`; on failure records the error and
re-throws, leaving `data` untouched.  `isLoading` is never modified. -/
def save {V : Type} (hasWindow : Bool) (o : Options) (v : V) (st : LoadState V)
    (env : DBEnv V) : OpResult V :=
  if hasWindow = false then ⟨st, env, Except.error browserOnlyMsg⟩
  else
    match getDB o.dbName o.storeName o.version env with
    | (Except.error e, env₂) =>
        ⟨{ st with error := some e }, env₂, Except.error e⟩
    | (Except.ok c, env₂) =>
        match dbPut env₂ c o.storeName v o.key with
        | Except.error e =>
            ⟨{ st with error := some e }, env₂, Except.error e⟩
        | Except.ok env₃ =>
            ⟨{ st with data := some v, error := none }, env₃, Except.ok ()⟩

/-- `remove`: throws outside the browser; otherwise clears `error`, deletes
the record, then sets `data` to `null`; on failure records the error and
re-throws.  `isLoading` is never modified. -/
def remove {V : Type} (hasWindow : Bool) (o : Options) (st : LoadState V)
    (env : DBEnv V) : OpResult V :=
  if hasWindow = false then ⟨st, env, Except.error browserOnlyMsg⟩
  else
    match getDB o.dbName o.storeName o.version env with
    | (Except.error e, env₂) =>
        ⟨{ st with error := some e }, env₂, Except.error e⟩
    | (Except.ok c, env₂) =>
        match dbDelete env₂ c o.storeName o.key with
        | Except.error e =>
            ⟨{ st with error := some e }, env₂, Except.error e⟩
        | Except.ok env₃ =>
            ⟨{ st with data := none, error := none }, env₃, Except.ok ()⟩

/-- `refresh`: re-issues `fetchData`. -/
def refresh {V : Type} (hasWindow : Bool) (o : Options) (st : LoadState V)
    (env : DBEnv V) : OpResult V :=
  fetchData hasWindow o st env

/-- The operations a hook instance can perform after mounting. -/
inductive Op (V : Type) where
  | fetch
  | saveOp (v : V)
  | removeOp
  | refreshOp
deriving Repr, DecidableEq

/-- Run one operation. -/
def runOp {V : Type} (hasWindow : Bool) (o : Options) (op : Op V) (st : LoadState V)
    (env : DBEnv V) : OpResult V :=
  match op with
  | Op.fetch => fetchData hasWindow o st env
  | Op.saveOp v => save hasWindow o v st env
  | Op.removeOp => remove hasWindow o st env
  | Op.refreshOp => refresh hasWindow o st env

/-- The quiescent instance states after each completed operation of a
sequence (the state between operations, as observed by renders). -/
def traceStates {V : Type} (hasWindow : Bool) (o : Options) :
    List (Op V) → LoadState V → DBEnv V → List (LoadState V)
  | [], _, _ => []
  | op :: ops, st, env =>
      let r := runOp hasWindow o op st env
      r.state :: traceStates hasWindow o ops r.state r.env

/-- Run a sequence of `getDB` calls `(dbName, storeName, version)`, threading
the backend state (results are returned to the callers and not needed here). -/
def runGetDBs {V : Type} : List (String × String × Nat) → DBEnv V → DBEnv V
  | [], env => env
  | (d, s, v) :: rest, env => runGetDBs rest (getDB d s v env).2

/-- How many underlying `openDB` invocations were issued for the pair
`(databaseName, version)`. -/
def countOpens {V : Type} (env : DBEnv V) (d : String) (v : Nat) : Nat :=
  env.opens.countP (fun p => p.1 == d && p.2 == v)

/-! ### API client error mapping (`src/lib/api/client.ts`)

Only the error path of `responseInterceptor` is modelled: a non-2xx
`Response` is reduced to its status, its status text and the outcome of
attempting `response.json()` — `body = none` when the body is not parseable
as JSON, `body = some m` when it parses with `m` the value of its `message`
field (`none` when the field is absent or not a usable string). -/

/-- The observable parts of a `Response` used by the error path. -/
structure Resp where
  status : Nat
  statusText : String
  body : Option (Option String)
deriving Repr, DecidableEq

/-- `response.ok`: status in the inclusive range 200–299. -/
def respOk (status : Nat) : Bool := decide (200 ≤ status) && decide (status < 300)

/-- Message of `parseErrorResponse` when the body parses without a usable
`message` field (the `||` fallback). -/
def unknownErrMsg : String := "알 수 없는 오류가 발생했습니다."

/-- Message of `parseErrorResponse` when the body is unparseable and the
status text is empty (the `||` fallback). -/
def parseFailMsg : String := "서버 응답을 파싱할 수 없습니다."

/-- `parseErrorResponse`: the body's `message` if truthy, else a fixed
unknown-error string; when `response.json()` throws, the status text if
truthy, else a fixed parse-failure string. -/
def parseErrorResponse (r : Resp) : String :=
  match r.body with
  | some (some m) => if m = "" then unknownErrMsg else m
  | some none => unknownErrMsg
  | none => if r.statusText = "" then parseFailMsg else r.statusText

/-- The `ApiError` object thrown for non-2xx responses. -/
structure ApiError where
  status : Nat
  message : String
  name : String
deriving Repr, DecidableEq

/-- `createApiError`: carries the status, starts from the parsed message and
overwrites it with a fixed human-readable string for 401/403/404/500. -/
def createApiError (status : Nat) (msg : String) : ApiError :=
  if status = 401 then ⟨status, "인증이 필요합니다. 다시 로그인해주세요.", "ApiError"⟩
  else if status = 403 then ⟨status, "접근 권한이 없습니다.", "ApiError"⟩
  else if status = 404 then ⟨status, "요청한 리소스를 찾을 수 없습니다.", "ApiError"⟩
  else if status = 500 then ⟨status, "서버 오류가 발생했습니다. 잠시 후 다시 시도해주세요.", "ApiError"⟩
  else ⟨status, msg, "ApiError"⟩

/-- The error `responseInterceptor` throws for a non-ok response (`none` when
the response is ok and nothing is thrown). -/
def interceptError (r : Resp) : Option ApiError :=
  if respOk r.status then none
  else some (createApiError r.status (parseErrorResponse r))

/-- Modelled from the spec sentence under test (C9): for a non-fixed status
the message is said to be "taken from the server response body, or the status
text when the body cannot be parsed". -/
def claimedOtherMessage (r : Resp) : Option String :=
  match r.body with
  | some m => m
  | none => some r.statusText

/-! ### UI store (`src/lib/store/ui-store.ts`) -/

/-- The theme union type. -/
inductive Theme where
  | light
  | dark
  | system
deriving Repr, DecidableEq

/-- The full `UIState`; `MD` is the type of `modalData` records. -/
structure UIState (MD : Type) where
  sidebarOpen : Bool
  sidebarCollapsed : Bool
  theme : Theme
  activeModal : Option String
  modalData : MD
  isLoading : Bool
  loadingMessage : String
deriving Repr, DecidableEq

/-- `initialState` of the store (`mdEmpty` models the empty record). -/
def initialState {MD : Type} (mdEmpty : MD) : UIState MD :=
  ⟨true, false, Theme.system, none, mdEmpty, false, ""⟩

/-- `setTheme` action. -/
def setTheme {MD : Type} (t : Theme) (s : UIState MD) : UIState MD :=
  { s with theme := t }

/-- `toggleTheme` action: from `system`, pick the opposite of the current
system preference (`systemIsDark` models `matchMedia.matches`); otherwise
toggle between `dark` and `light`. -/
def toggleTheme {MD : Type} (systemIsDark : Bool) (s : UIState MD) : UIState MD :=
  if s.theme = Theme.system then
    { s with theme := if systemIsDark then Theme.light else Theme.dark }
  else
    { s with theme := if s.theme = Theme.dark then Theme.light else Theme.dark }

/-- `reset` action: `set(initialState)` replaces every field of the state. -/
def reset {MD : Type} (mdEmpty : MD) (_ : UIState MD) : UIState MD :=
  initialState mdEmpty

/-! ### Association-list lemmas -/

theorem alookup_updBind_self {α : Type u} (k : String) (f : α → α) (l : List (String × α)) :
    alookup k (updBind k f l) = (alookup k l).map f := by
  induction l with
  | nil => rfl
  | cons p rest ih =>
    obtain ⟨k₂, x⟩ := p
    by_cases h : k₂ = k
    · simp [updBind, alookup, h]
    · simp [updBind, alookup, h, ih]

theorem alookup_aerase_self {α : Type u} (k : String) (l : List (String × α)) :
    alookup k (aerase k l) = none := by
  induction l with
  | nil => rfl
  | cons p rest ih =>
    obtain ⟨k₂, x⟩ := p
    by_cases h : k₂ = k
    · simpa [aerase, h] using ih
    · simpa [aerase, alookup, h] using ih

theorem alookup_ainsert_self {α : Type u} (k : String) (v : α) (l : List (String × α)) :
    alookup k (ainsert k v l) = some v := by
  simp [ainsert, alookup]

theorem alookup_cons_preserved {α : Type u} (k k₂ : String) (x : α) (l : List (String × α))
    (h : (alookup k l).isSome) : (alookup k ((k₂, x) :: l)).isSome := by
  by_cases hk : k₂ = k <;> simp [alookup, hk, h]

/-! ### `getDB` and store-operation lemmas -/

/-- After any `getDB` call, the module cache binds the call's cache key to
exactly the result the call returned. -/
theorem getDB_cache_self {V : Type} (d s : String) (v : Nat) (env env₂ : DBEnv V)
    (r : Except String Conn) (h : getDB d s v env = (r, env₂)) :
    alookup (cacheKey d v) env₂.cache = some r := by
  unfold getDB at h
  split at h
  next r₀ hc =>
    obtain ⟨rfl, rfl⟩ := Prod.mk.injEq .. ▸ h
    exact hc
  next hc =>
    obtain ⟨rfl, rfl⟩ := Prod.mk.injEq .. ▸ h
    simp [alookup]

/-- A `getDB` call whose cache key is already bound returns the cached result
and leaves the backend state unchanged. -/
theorem getDB_cached {V : Type} (d s : String) (v : Nat) (env : DBEnv V)
    (r : Except String Conn) (hc : alookup (cacheKey d v) env.cache = some r) :
    getDB d s v env = (r, env) := by
  unfold getDB
  split
  next r₀ hc₂ => rw [hc] at hc₂; cases hc₂; rfl
  next hc₂ => rw [hc] at hc₂; cases hc₂

/-- `dbPut` never touches the module cache. -/
theorem dbPut_cache {V : Type} (env env₂ : DBEnv V) (c : Conn) (s : String) (v : V)
    (k : String) (h : dbPut env c s v k = Except.ok env₂) : env₂.cache = env.cache := by
  unfold dbPut at h
  split at h
  · cases h
  split at h
  · cases h
  cases h
  rfl

/-- `dbDelete` never touches the module cache. -/
theorem dbDelete_cache {V : Type} (env env₂ : DBEnv V) (c : Conn) (s k : String)
    (h : dbDelete env c s k = Except.ok env₂) : env₂.cache = env.cache := by
  unfold dbDelete at h
  split at h
  · cases h
  split at h
  · cases h
  cases h
  rfl

/-- Reading back right after a successful `dbPut` yields the written value. -/
theorem dbPut_dbGet {V : Type} (env env₂ : DBEnv V) (c : Conn) (s : String) (v : V)
    (k : String) (h : dbPut env c s v k = Except.ok env₂) :
    dbGet env₂ c s k = Except.ok (some v) := by
  unfold dbPut at h
  split at h
  · cases h
  next db hdb =>
    split at h
    · cases h
    next recs hrecs =>
      cases h
      simp [dbGet, alookup_updBind_self, hdb, hrecs, alookup_ainsert_self]

/-- The lookups a successful `dbPut` performed, and the shape of its result. -/
theorem dbPut_shape {V : Type} (env env₂ : DBEnv V) (c : Conn) (s : String) (v : V)
    (k : String) (h : dbPut env c s v k = Except.ok env₂) :
    ∃ (db : Database V) (recs : Records V),
      alookup c.dbName env.databases = some db ∧ alookup s db.stores = some recs ∧
      env₂ = { env with databases := (updBind c.dbName (fun db₂ => { db₂ with stores := updBind s (fun r => ainsert k v r) db₂.stores }) env.databases) } := by
  unfold dbPut at h
  split at h
  · cases h
  next db hdb =>
    split at h
    · cases h
    next recs hrecs =>
      cases h
      exact ⟨db, recs, hdb, hrecs, rfl⟩

/-- `dbDelete` evaluated when the database and store exist. -/
theorem dbDelete_eq {V : Type} (env : DBEnv V) (c : Conn) (s k : String)
    (db : Database V) (recs : Records V)
    (hdb : alookup c.dbName env.databases = some db)
    (hrecs : alookup s db.stores = some recs) :
    dbDelete env c s k = Except.ok { env with databases := (updBind c.dbName (fun db₂ => { db₂ with stores := updBind s (fun r => aerase k r) db₂.stores }) env.databases) } := by
  unfold dbDelete
  split
  next h => rw [hdb] at h; cases h
  next db₂ h =>
    rw [hdb] at h; cases h
    split
    next h₂ => rw [hrecs] at h₂; cases h₂
    next recs₂ h₂ => rfl

/-- After a successful `dbPut`, `dbDelete` of the same record succeeds and a
subsequent read yields `none`; the cache is untouched throughout. -/
theorem dbPut_dbDelete_dbGet {V : Type} (env env₂ : DBEnv V) (c : Conn) (s : String)
    (v : V) (k : String) (h : dbPut env c s v k = Except.ok env₂) :
    ∃ env₃ : DBEnv V, dbDelete env₂ c s k = Except.ok env₃
      ∧ dbGet env₃ c s k = Except.ok none ∧ env₃.cache = env₂.cache := by
  obtain ⟨db, recs, hdb, hrecs, rfl⟩ := dbPut_shape env env₂ c s v k h
  have hdb₂ : alookup c.dbName (updBind c.dbName (fun db₂ => { db₂ with stores := updBind s (fun r => ainsert k v r) db₂.stores }) env.databases) = some { db with stores := updBind s (fun r => ainsert k v r) db.stores } := by
    rw [alookup_updBind_self, hdb]; rfl
  have hrecs₂ : alookup s (updBind s (fun r => ainsert k v r) db.stores) = some (ainsert k v recs) := by
    rw [alookup_updBind_self, hrecs]; rfl
  refine ⟨_, dbDelete_eq _ c s k _ _ hdb₂ hrecs₂, ?_, rfl⟩
  unfold dbGet
  rw [alookup_updBind_self, hdb₂]
  simp only [Option.map_some']
  rw [alookup_updBind_self, hrecs₂]
  simp [alookup_aerase_self]

/-! ### Case analyses of the hook operations -/

/-- Complete case analysis of one `save` call. -/
theorem save_elim {V : Type} (hw : Bool) (o : Options) (v : V) (st : LoadState V)
    (env : DBEnv V) :
    (hw = false ∧ save hw o v st env = ⟨st, env, Except.error browserOnlyMsg⟩)
    ∨ (∃ e env₂, hw = true ∧ getDB o.dbName o.storeName o.version env = (Except.error e, env₂)
        ∧ save hw o v st env = ⟨{ st with error := some e }, env₂, Except.error e⟩)
    ∨ (∃ c env₂ e, hw = true ∧ getDB o.dbName o.storeName o.version env = (Except.ok c, env₂)
        ∧ dbPut env₂ c o.storeName v o.key = Except.error e
        ∧ save hw o v st env = ⟨{ st with error := some e }, env₂, Except.error e⟩)
    ∨ (∃ c env₂ env₃, hw = true ∧ getDB o.dbName o.storeName o.version env = (Except.ok c, env₂)
        ∧ dbPut env₂ c o.storeName v o.key = Except.ok env₃
        ∧ save hw o v st env = ⟨{ st with data := some v, error := none }, env₃, Except.ok ()⟩) := by
  cases hw with
  | false => exact Or.inl ⟨rfl, rfl⟩
  | true =>
    obtain ⟨r, env₂, hg⟩ : ∃ r env₂, getDB o.dbName o.storeName o.version env = (r, env₂) :=
      ⟨_, _, rfl⟩
    cases r with
    | error e =>
      refine Or.inr (Or.inl ⟨e, env₂, rfl, hg, ?_⟩)
      unfold save
      rw [hg]
      rfl
    | ok c =>
      obtain ⟨p, hp⟩ : ∃ p, dbPut env₂ c o.storeName v o.key = p := ⟨_, rfl⟩
      cases p with
      | error e =>
        refine Or.inr (Or.inr (Or.inl ⟨c, env₂, e, rfl, hg, hp, ?_⟩))
        unfold save
        rw [hg]
        simp [hp]
      | ok env₃ =>
        refine Or.inr (Or.inr (Or.inr ⟨c, env₂, env₃, rfl, hg, hp, ?_⟩))
        unfold save
        rw [hg]
        simp [hp]

/-- Complete case analysis of one `remove` call. -/
theorem remove_elim {V : Type} (hw : Bool) (o : Options) (st : LoadState V)
    (env : DBEnv V) :
    (hw = false ∧ remove hw o st env = ⟨st, env, Except.error browserOnlyMsg⟩)
    ∨ (∃ e env₂, hw = true ∧ getDB o.dbName o.storeName o.version env = (Except.error e, env₂)
        ∧ remove hw o st env = ⟨{ st with error := some e }, env₂, Except.error e⟩)
    ∨ (∃ c env₂ e, hw = true ∧ getDB o.dbName o.storeName o.version env = (Except.ok c, env₂)
        ∧ dbDelete env₂ c o.storeName o.key = Except.error e
        ∧ remove hw o st env = ⟨{ st with error := some e }, env₂, Except.error e⟩)
    ∨ (∃ c env₂ env₃, hw = true ∧ getDB o.dbName o.storeName o.version env = (Except.ok c, env₂)
        ∧ dbDelete env₂ c o.storeName o.key = Except.ok env₃
        ∧ remove hw o st env = ⟨{ st with data := none, error := none }, env₃, Except.ok ()⟩) := by
  cases hw with
  | false => exact Or.inl ⟨rfl, rfl⟩
  | true =>
    obtain ⟨r, env₂, hg⟩ : ∃ r env₂, getDB o.dbName o.storeName o.version env = (r, env₂) :=
      ⟨_, _, rfl⟩
    cases r with
    | error e =>
      refine Or.inr (Or.inl ⟨e, env₂, rfl, hg, ?_⟩)
      unfold remove
      rw [hg]
      rfl
    | ok c =>
      obtain ⟨p, hp⟩ : ∃ p, dbDelete env₂ c o.storeName o.key = p := ⟨_, rfl⟩
      cases p with
      | error e =>
        refine Or.inr (Or.inr (Or.inl ⟨c, env₂, e, rfl, hg, hp, ?_⟩))
        unfold remove
        rw [hg]
        simp [hp]
      | ok env₃ =>
        refine Or.inr (Or.inr (Or.inr ⟨c, env₂, env₃, rfl, hg, hp, ?_⟩))
        unfold remove
        rw [hg]
        simp [hp]

/-- Complete case analysis of one `fetchData` call. -/
theorem fetchData_elim {V : Type} (hw : Bool) (o : Options) (st : LoadState V)
    (env : DBEnv V) :
    (hw = false ∧ fetchData hw o st env = ⟨{ st with isLoading := false }, env, Except.ok ()⟩)
    ∨ (∃ e env₂, hw = true ∧ getDB o.dbName o.storeName o.version env = (Except.error e, env₂)
        ∧ fetchData hw o st env = ⟨{ st with isLoading := false, error := some e }, env₂, Except.ok ()⟩)
    ∨ (∃ c env₂ e, hw = true ∧ getDB o.dbName o.storeName o.version env = (Except.ok c, env₂)
        ∧ dbGet env₂ c o.storeName o.key = Except.error e
        ∧ fetchData hw o st env = ⟨{ st with isLoading := false, error := some e }, env₂, Except.ok ()⟩)
    ∨ (∃ c env₂ w, hw = true ∧ getDB o.dbName o.storeName o.version env = (Except.ok c, env₂)
        ∧ dbGet env₂ c o.storeName o.key = Except.ok w
        ∧ fetchData hw o st env = ⟨{ st with data := w, isLoading := false, error := none }, env₂, Except.ok ()⟩) := by
  cases hw with
  | false => exact Or.inl ⟨rfl, rfl⟩
  | true =>
    obtain ⟨r, env₂, hg⟩ : ∃ r env₂, getDB o.dbName o.storeName o.version env = (r, env₂) :=
      ⟨_, _, rfl⟩
    cases r with
    | error e =>
      refine Or.inr (Or.inl ⟨e, env₂, rfl, hg, ?_⟩)
      unfold fetchData
      rw [hg]
      rfl
    | ok c =>
      obtain ⟨p, hp⟩ : ∃ p, dbGet env₂ c o.storeName o.key = p := ⟨_, rfl⟩
      cases p with
      | error e =>
        refine Or.inr (Or.inr (Or.inl ⟨c, env₂, e, rfl, hg, hp, ?_⟩))
        unfold fetchData
        rw [hg]
        simp [hp]
      | ok w =>
        refine Or.inr (Or.inr (Or.inr ⟨c, env₂, w, rfl, hg, hp, ?_⟩))
        unfold fetchData
        rw [hg]
        simp [hp]

/-- `fetchData` always leaves `isLoading` false. -/
theorem fetchData_isLoading {V : Type} (hw : Bool) (o : Options) (st : LoadState V)
    (env : DBEnv V) : (fetchData hw o st env).state.isLoading = false := by
  rcases fetchData_elim hw o st env with ⟨_, h⟩ | ⟨e, env₂, _, _, h⟩ | ⟨c, env₂, e, _, _, _, h⟩ | ⟨c, env₂, w, _, _, _, h⟩ <;>
    rw [h]

/-- `save` never modifies `isLoading`. -/
theorem save_isLoading {V : Type} (hw : Bool) (o : Options) (v : V) (st : LoadState V)
    (env : DBEnv V) : (save hw o v st env).state.isLoading = st.isLoading := by
  rcases save_elim hw o v st env with ⟨_, h⟩ | ⟨e, env₂, _, _, h⟩ | ⟨c, env₂, e, _, _, _, h⟩ | ⟨c, env₂, env₃, _, _, _, h⟩ <;>
    rw [h]

/-- `remove` never modifies `isLoading`. -/
theorem remove_isLoading {V : Type} (hw : Bool) (o : Options) (st : LoadState V)
    (env : DBEnv V) : (remove hw o st env).state.isLoading = st.isLoading := by
  rcases remove_elim hw o st env with ⟨_, h⟩ | ⟨e, env₂, _, _, h⟩ | ⟨c, env₂, e, _, _, _, h⟩ | ⟨c, env₂, env₃, _, _, _, h⟩ <;>
    rw [h]

/-! ### Single-flight lemmas for `getDB` -/

/-- `openDB` logs exactly one open of its `(dbName, version)` pair. -/
theorem openDB_opens {V : Type} (d : String) (v : Nat) (s : String) (env : DBEnv V) :
    (openDB d v s env).2.opens = (d, v) :: env.opens := by
  unfold openDB
  split
  · rfl
  · split
    · rfl
    · split <;> rfl

/-- `openDB` never touches the module cache. -/
theorem openDB_cache {V : Type} (d : String) (v : Nat) (s : String) (env : DBEnv V) :
    (openDB d v s env).2.cache = env.cache := by
  unfold openDB
  split
  · rfl
  · split
    · rfl
    · split <;> rfl

/-- On a cache miss, `getDB` logs one open and prepends one cache entry. -/
theorem getDB_fresh {V : Type} (d s : String) (v : Nat) (env : DBEnv V)
    (hc : alookup (cacheKey d v) env.cache = none) :
    (getDB d s v env).2.opens = (d, v) :: env.opens
    ∧ (getDB d s v env).2.cache = (cacheKey d v, (getDB d s v env).1) :: env.cache := by
  unfold getDB
  rw [hc]
  exact ⟨openDB_opens d v s env, by rw [openDB_cache d v s env]⟩

/-- One `getDB` call preserves the single-flight invariant: every
`(databaseName, version)` pair has been opened at most once, and every opened
pair is present in the module cache. -/
theorem getDB_inv {V : Type} (d s : String) (v : Nat) (env : DBEnv V)
    (hcount : ∀ d₂ v₂, countOpens env d₂ v₂ ≤ 1)
    (hinv : ∀ d₂ v₂, 0 < countOpens env d₂ v₂ → (alookup (cacheKey d₂ v₂) env.cache).isSome) :
    (∀ d₂ v₂, countOpens (getDB d s v env).2 d₂ v₂ ≤ 1)
    ∧ (∀ d₂ v₂, 0 < countOpens (getDB d s v env).2 d₂ v₂ →
        (alookup (cacheKey d₂ v₂) (getDB d s v env).2.cache).isSome) := by
  cases hc : alookup (cacheKey d v) env.cache with
  | some r =>
    rw [getDB_cached d s v env r hc]
    exact ⟨hcount, hinv⟩
  | none =>
    obtain ⟨hopens, hcache⟩ := getDB_fresh d s v env hc
    have hzero : countOpens env d v = 0 := by
      by_contra hne
      have := hinv d v (Nat.pos_of_ne_zero hne)
      rw [hc] at this
      cases this
    have hstep : ∀ d₂ v₂, countOpens (getDB d s v env).2 d₂ v₂
        = countOpens env d₂ v₂ + (if d = d₂ ∧ v = v₂ then 1 else 0) := by
      intro d₂ v₂
      unfold countOpens
      rw [hopens, List.countP_cons]
      by_cases hpair : d = d₂ ∧ v = v₂
      · obtain ⟨rfl, rfl⟩ := hpair
        simp
      · have hfalse : ((d, v).1 == d₂ && (d, v).2 == v₂) = false := by
          rcases not_and_or.mp hpair with h | h <;> simp [h]
        simp [hfalse, hpair]
    constructor
    · intro d₂ v₂
      rw [hstep d₂ v₂]
      by_cases hpair : d = d₂ ∧ v = v₂
      · obtain ⟨rfl, rfl⟩ := hpair
        simp [hzero]
      · rw [if_neg hpair]
        simpa using hcount d₂ v₂
    · intro d₂ v₂ hpos
      rw [hcache]
      by_cases hkey : cacheKey d v = cacheKey d₂ v₂
      · simp [alookup, hkey]
      · have heq : alookup (cacheKey d₂ v₂) ((cacheKey d v, (getDB d s v env).1) :: env.cache)
            = alookup (cacheKey d₂ v₂) env.cache := by
          simp [alookup, hkey]
        rw [heq]
        apply hinv
        by_cases hpair : d = d₂ ∧ v = v₂
        · exact absurd (by rw [hpair.1, hpair.2]) hkey
        · rw [hstep d₂ v₂, if_neg hpair] at hpos
          simpa using hpos

/-- The single-flight invariant holds after any sequence of `getDB` calls. -/
theorem runGetDBs_inv {V : Type} (calls : List (String × String × Nat)) (env : DBEnv V)
    (hcount : ∀ d₂ v₂, countOpens env d₂ v₂ ≤ 1)
    (hinv : ∀ d₂ v₂, 0 < countOpens env d₂ v₂ → (alookup (cacheKey d₂ v₂) env.cache).isSome) :
    ∀ d v, countOpens (runGetDBs calls env) d v ≤ 1 := by
  induction calls generalizing env with
  | nil => exact hcount
  | cons c rest ih =>
    obtain ⟨d, s, v⟩ := c
    obtain ⟨h₁, h₂⟩ := getDB_inv d s v env hcount hinv
    exact ih (getDB d s v env).2 h₁ h₂

/-- `hasStoreIn` holds as soon as the database resolves and contains the store. -/
theorem hasStoreIn_intro {V : Type} (env : DBEnv V) (d s : String) (db : Database V)
    (hdb : alookup d env.databases = some db) (hs : (alookup s db.stores).isSome) :
    hasStoreIn env d s = true := by
  unfold hasStoreIn
  rw [hdb]
  exact hs

/-- The upgrade callback guarantees its store exists afterwards. -/
theorem upgradeRun_hasStore {V : Type} (s : String) (db : Database V) :
    (alookup s (upgradeRun s db).stores).isSome := by
  unfold upgradeRun
  by_cases h : (alookup s db.stores).isSome
  · simp [h]
  · simp [h, alookup]

/-- When the database is absent or strictly below the requested version,
`openDB` succeeds and its upgrade step leaves the store present. -/
theorem openDB_creates {V : Type} (d : String) (v : Nat) (s : String) (env : DBEnv V)
    (hver : ∀ db : Database V, alookup d env.databases = some db → db.version < v) :
    (openDB d v s env).1 = Except.ok ⟨env.nextId, d⟩
    ∧ hasStoreIn (openDB d v s env).2 d s = true := by
  unfold openDB
  split
  next hdb =>
    refine ⟨rfl, ?_⟩
    refine hasStoreIn_intro _ d s (upgradeRun s ⟨v, []⟩) (by simp [alookup]) ?_
    exact upgradeRun_hasStore s ⟨v, []⟩
  next db hdb =>
    have hlt := hver db hdb
    rw [if_neg (Nat.not_lt.mpr (le_of_lt hlt)), if_pos hlt]
    refine ⟨rfl, ?_⟩
    refine hasStoreIn_intro _ d s (upgradeRun s { db with version := v }) ?_ ?_
    · show alookup d (updBind d (fun _ => upgradeRun s { db with version := v }) env.databases) = _
      rw [alookup_updBind_self, hdb]
      rfl
    · exact upgradeRun_hasStore s { db with version := v }

/-- Evaluation of `fetchData` when the connection is cached and the read
succeeds. -/
theorem fetchData_eval {V : Type} (o : Options) (st : LoadState V) (env : DBEnv V)
    (c : Conn) (w : Option V)
    (hgd : getDB o.dbName o.storeName o.version env = (Except.ok c, env))
    (hget : dbGet env c o.storeName o.key = Except.ok w) :
    fetchData true o st env
      = ⟨{ st with data := w, isLoading := false, error := none }, env, Except.ok ()⟩ := by
  rcases fetchData_elim true o st env with ⟨hf, _⟩ | ⟨e, env₂, _, hg₂, heq⟩
    | ⟨c₂, env₂, e, _, hg₂, hget₂, heq⟩ | ⟨c₂, env₂, w₂, _, hg₂, hget₂, heq⟩
  · cases hf
  · rw [hgd] at hg₂
    simp at hg₂
  · rw [hgd] at hg₂
    simp only [Prod.mk.injEq, Except.ok.injEq] at hg₂
    obtain ⟨rfl, rfl⟩ := hg₂
    rw [hget] at hget₂
    simp at hget₂
  · rw [hgd] at hg₂
    simp only [Prod.mk.injEq, Except.ok.injEq] at hg₂
    obtain ⟨rfl, rfl⟩ := hg₂
    rw [hget] at hget₂
    simp only [Except.ok.injEq] at hget₂
    rw [← hget₂] at heq
    exact heq

/-- Evaluation of `remove` when the connection is cached and the delete
succeeds. -/
theorem remove_eval {V : Type} (o : Options) (st : LoadState V) (env env₃ : DBEnv V)
    (c : Conn)
    (hgd : getDB o.dbName o.storeName o.version env = (Except.ok c, env))
    (hdel : dbDelete env c o.storeName o.key = Except.ok env₃) :
    remove true o st env = ⟨{ st with data := none, error := none }, env₃, Except.ok ()⟩ := by
  rcases remove_elim true o st env with ⟨hf, _⟩ | ⟨e, env₂, _, hg₂, heq⟩
    | ⟨c₂, env₂, e, _, hg₂, hdel₂, heq⟩ | ⟨c₂, env₂, env₄, _, hg₂, hdel₂, heq⟩
  · cases hf
  · rw [hgd] at hg₂
    simp at hg₂
  · rw [hgd] at hg₂
    simp only [Prod.mk.injEq, Except.ok.injEq] at hg₂
    obtain ⟨rfl, rfl⟩ := hg₂
    rw [hdel] at hdel₂
    simp at hdel₂
  · rw [hgd] at hg₂
    simp only [Prod.mk.injEq, Except.ok.injEq] at hg₂
    obtain ⟨rfl, rfl⟩ := hg₂
    rw [hdel] at hdel₂
    simp only [Except.ok.injEq] at hdel₂
    rw [← hdel₂] at heq
    exact heq

/-- All states along an operation trace keep `isLoading` false once it is
false (loads reset it in `finally`; `save`/`remove` never touch it). -/
theorem traceStates_isLoading {V : Type} (o : Options) (ops : List (Op V)) :
    ∀ (st : LoadState V) (env : DBEnv V), st.isLoading = false →
      ∀ st₂ ∈ traceStates true o ops st env, st₂.isLoading = false := by
  induction ops with
  | nil =>
    intro st env h st₂ hmem
    simp [traceStates] at hmem
  | cons op rest ih =>
    intro st env h st₂ hmem
    have hhead : (runOp true o op st env).state.isLoading = false := by
      cases op with
      | fetch => exact fetchData_isLoading true o st env
      | saveOp v => exact (save_isLoading true o v st env).trans h
      | removeOp => exact (remove_isLoading true o st env).trans h
      | refreshOp => exact fetchData_isLoading true o st env
    simp only [traceStates, List.mem_cons] at hmem
    rcases hmem with rfl | hmem
    · exact hhead
    · exact ih (runOp true o op st env).state (runOp true o op st env).env hhead st₂ hmem

/-! ## Claim theorems -/

/-- C1 (confirmed) — Single-flight connection opening: along any sequence of
`getDB` calls from a fresh process, at most one underlying `openDB` (with its
upgrade sequence) is issued per `(databaseName, version)` pair; and any
`getDB` call for a pair that some call already resolved returns exactly that
call's result (the same shared connection) without touching the state. -/
theorem C1_single_flight_open :
    (∀ (calls : List (String × String × Nat)) (d : String) (v : Nat),
        countOpens (runGetDBs (V := Nat) calls emptyEnv) d v ≤ 1)
    ∧ (∀ (d s s₂ : String) (v : Nat) (env env₂ : DBEnv Nat) (r : Except String Conn),
        getDB d s v env = (r, env₂) → getDB d s₂ v env₂ = (r, env₂)) := by
  constructor
  · intro calls d v
    refine runGetDBs_inv calls emptyEnv (fun d₂ v₂ => ?_) (fun d₂ v₂ h => ?_) d v
    · simp [countOpens, emptyEnv]
    · simp [countOpens, emptyEnv] at h
  · intro d s s₂ v env env₂ r h
    exact getDB_cached d s₂ v env₂ r (getDB_cache_self d s v env env₂ r h)

/-- Witness for C1: a second open of `("demo", 1)` under a different store
name returns the first call's connection and leaves the state unchanged. -/
theorem C1_single_flight_open_witness :
    getDB (V := Nat) "demo" "memos" 1 (getDB (V := Nat) "demo" "logs" 1 emptyEnv).2
      = ((getDB (V := Nat) "demo" "logs" 1 emptyEnv).1,
         (getDB (V := Nat) "demo" "logs" 1 emptyEnv).2) :=
  C1_single_flight_open.2 "demo" "logs" "memos" 1 emptyEnv _ _ rfl

/-- C2 counterexample: after `getDB("d", "s1", 1)`, the call
`getDB("d", "s2", 1)` is served from the cache (it returns the very
connection of the first call) and the partition `"s2"` does **not** exist in
database `"d"` afterwards — refuting the claim that the named partition
exists after every `getDB` call, including cache hits declaring a different
store name. -/
theorem C2_partition_creation_cex :
    (getDB (V := Nat) "d" "s2" 1 (getDB (V := Nat) "d" "s1" 1 emptyEnv).2).1
        = (getDB (V := Nat) "d" "s1" 1 emptyEnv).1
    ∧ hasStoreIn ((getDB (V := Nat) "d" "s2" 1 (getDB (V := Nat) "d" "s1" 1 emptyEnv).2).2) "d" "s2"
        = false := by
  decide

/-- C2 (corrected) — Partition creation at open: when a `getDB` call actually
triggers a fresh `openDB` (its `(databaseName, version)` key is not cached)
and the database is new or below the requested version, the call succeeds and
the named partition exists afterwards.  A call served from the cache does not
create its partition (see the counterexample). -/
theorem C2_partition_creation_amended :
    ∀ (env : DBEnv Nat) (d s : String) (v : Nat),
      alookup (cacheKey d v) env.cache = none →
      (∀ db : Database Nat, alookup d env.databases = some db → db.version < v) →
      ∃ (c : Conn) (env₂ : DBEnv Nat),
        getDB d s v env = (Except.ok c, env₂) ∧ hasStoreIn env₂ d s = true := by
  intro env d s v hc hver
  obtain ⟨h₁, h₂⟩ := openDB_creates d v s env hver
  refine ⟨⟨env.nextId, d⟩,
    { (openDB d v s env).2 with
        cache := (cacheKey d v, (openDB d v s env).1) :: (openDB d v s env).2.cache },
    ?_, ?_⟩
  · unfold getDB
    rw [hc, h₁]
  · exact h₂

/-- Witness for C2: a fresh open on an empty process creates the partition. -/
theorem C2_partition_creation_witness :
    ∃ (c : Conn) (env₂ : DBEnv Nat),
      getDB "demo" "memos" 1 emptyEnv = (Except.ok c, env₂)
      ∧ hasStoreIn env₂ "demo" "memos" = true :=
  C2_partition_creation_amended emptyEnv "demo" "memos" 1 rfl
    (fun db h => by simp [emptyEnv, alookup] at h)

/-- C4 (confirmed) — Save failure atomicity: whenever `save` rejects, the
instance's `data` field equals its pre-call value. -/
theorem C4_save_failure_atomic :
    ∀ (hw : Bool) (o : Options) (v : Nat) (st : LoadState Nat) (env : DBEnv Nat) (e : String),
      (save hw o v st env).result = Except.error e →
      (save hw o v st env).state.data = st.data := by
  intro hw o v st env e h
  rcases save_elim hw o v st env with ⟨_, heq⟩ | ⟨_, _, _, _, heq⟩
    | ⟨_, _, _, _, _, _, heq⟩ | ⟨_, _, _, _, _, _, heq⟩
  · rw [heq]
  · rw [heq]
  · rw [heq]
  · rw [heq] at h
    simp at h

/-- Witness for C4: a `save` against a connection cached for a different
store name rejects with `NotFoundError` and leaves `data` untouched. -/
theorem C4_save_failure_atomic_witness :
    (save true ⟨"d", "s2", "k", 1⟩ (7 : Nat) initialLoadState
        (getDB (V := Nat) "d" "s1" 1 emptyEnv).2).result = Except.error "NotFoundError"
    ∧ (save true ⟨"d", "s2", "k", 1⟩ (7 : Nat) initialLoadState
        (getDB (V := Nat) "d" "s1" 1 emptyEnv).2).state.data
      = (initialLoadState (V := Nat)).data :=
  ⟨by decide,
   C4_save_failure_atomic true ⟨"d", "s2", "k", 1⟩ 7 initialLoadState
     (getDB (V := Nat) "d" "s1" 1 emptyEnv).2 "NotFoundError" (by decide)⟩

/-- C8 counterexample: `fetchData` (the hook's load) invoked outside the
browser does **not** fail with a storage-unavailable error: it resolves
normally, records no error, and leaves the backend untouched — refuting the
claim that *every* store operation fails with `StorageUnavailable` there. -/
theorem C8_storage_unavailable_cex :
    (fetchData false ⟨"demo", "memos", "current-memo", 1⟩ (initialLoadState (V := Nat)) emptyEnv).result
        = Except.ok ()
    ∧ (fetchData false ⟨"demo", "memos", "current-memo", 1⟩ (initialLoadState (V := Nat)) emptyEnv).state.error
        = none
    ∧ (fetchData false ⟨"demo", "memos", "current-memo", 1⟩ (initialLoadState (V := Nat)) emptyEnv).env
        = emptyEnv := by
  decide

/-- C8 (corrected) — Storage unavailable outside the browser: `save` and
`remove` invoked with `window` undefined reject with the browser-only error
without touching the store or the instance state; `fetchData`/`refresh`
instead return silently (no error raised, none recorded), only clearing
`isLoading`, and equally leave the store untouched. -/
theorem C8_storage_unavailable_amended {V : Type} :
    ∀ (o : Options) (st : LoadState V) (env : DBEnv V) (v : V),
      save false o v st env = ⟨st, env, Except.error browserOnlyMsg⟩
      ∧ remove false o st env = ⟨st, env, Except.error browserOnlyMsg⟩
      ∧ fetchData false o st env = ⟨{ st with isLoading := false }, env, Except.ok ()⟩
      ∧ refresh false o st env = ⟨{ st with isLoading := false }, env, Except.ok ()⟩ := by
  intro o st env v
  exact ⟨rfl, rfl, rfl, rfl⟩

/-- C5 (confirmed) — Load-after-save round trip: whenever `save(v)` succeeds
(from any backend state, so in particular regardless of any previous value
under the key), the instance's `data` holds `v`, and a subsequent load
(`fetchData`) on the same connection returns exactly `v` with no error. -/
theorem C5_load_after_save :
    ∀ (o : Options) (v : Nat) (st st₂ : LoadState Nat) (env env₂ : DBEnv Nat),
      save true o v st env = ⟨st₂, env₂, Except.ok ()⟩ →
      st₂.data = some v
      ∧ (fetchData true o st₂ env₂).state.data = some v
      ∧ (fetchData true o st₂ env₂).state.error = none := by
  intro o v st st₂ env env₂ h
  rcases save_elim true o v st env with ⟨hf, _⟩ | ⟨e, env₃, _, _, heq⟩
    | ⟨c, env₃, e, _, _, _, heq⟩ | ⟨c, env₃, env₄, _, hg, hput, heq⟩
  · cases hf
  · rw [heq] at h
    simp at h
  · rw [heq] at h
    simp at h
  · rw [heq] at h
    injection h with h₁ h₂ h₃
    subst h₁
    subst h₂
    have hkey : alookup (cacheKey o.dbName o.version) env₃.cache = some (Except.ok c) :=
      getDB_cache_self o.dbName o.storeName o.version env env₃ (Except.ok c) hg
    have hcacheP : env₄.cache = env₃.cache := dbPut_cache env₃ env₄ c o.storeName v o.key hput
    have hgd : getDB o.dbName o.storeName o.version env₄ = (Except.ok c, env₄) :=
      getDB_cached o.dbName o.storeName o.version env₄ (Except.ok c) (hcacheP ▸ hkey)
    have hget : dbGet env₄ c o.storeName o.key = Except.ok (some v) :=
      dbPut_dbGet env₃ env₄ c o.storeName v o.key hput
    rw [fetchData_eval o _ env₄ c (some v) hgd hget]
    exact ⟨rfl, rfl, rfl⟩

/-- Witness for C5: the concrete round trip on a fresh process. -/
theorem C5_load_after_save_witness :
    save true ⟨"demo", "memos", "current-memo", 1⟩ (42 : Nat) initialLoadState emptyEnv
      = ⟨(save true ⟨"demo", "memos", "current-memo", 1⟩ (42 : Nat) initialLoadState emptyEnv).state,
         (save true ⟨"demo", "memos", "current-memo", 1⟩ (42 : Nat) initialLoadState emptyEnv).env,
         Except.ok ()⟩
    ∧ ((save true ⟨"demo", "memos", "current-memo", 1⟩ (42 : Nat) initialLoadState emptyEnv).state.data
        = some 42
      ∧ (fetchData true ⟨"demo", "memos", "current-memo", 1⟩
          (save true ⟨"demo", "memos", "current-memo", 1⟩ (42 : Nat) initialLoadState emptyEnv).state
          (save true ⟨"demo", "memos", "current-memo", 1⟩ (42 : Nat) initialLoadState emptyEnv).env).state.data
        = some 42
      ∧ (fetchData true ⟨"demo", "memos", "current-memo", 1⟩
          (save true ⟨"demo", "memos", "current-memo", 1⟩ (42 : Nat) initialLoadState emptyEnv).state
          (save true ⟨"demo", "memos", "current-memo", 1⟩ (42 : Nat) initialLoadState emptyEnv).env).state.error
        = none) :=
  ⟨by decide,
   C5_load_after_save ⟨"demo", "memos", "current-memo", 1⟩ 42 initialLoadState _ emptyEnv _
     (by decide)⟩

/-- C6 (confirmed) — Delete clears: after a successful `save(v)` followed by
a successful `remove`, a load returns null with no error (and the instance's
`data` is null); moreover a load for a key never saved (fresh process)
returns null without raising and records no error. -/
theorem C6_delete_clears :
    (∀ (o : Options) (v : Nat) (st₁ st₂ st₃ : LoadState Nat) (env₁ env₂ env₃ : DBEnv Nat),
      save true o v st₁ env₁ = ⟨st₂, env₂, Except.ok ()⟩ →
      remove true o st₂ env₂ = ⟨st₃, env₃, Except.ok ()⟩ →
      st₃.data = none
      ∧ (fetchData true o st₃ env₃).state.data = none
      ∧ (fetchData true o st₃ env₃).state.error = none)
    ∧ (∀ (o : Options) (st : LoadState Nat),
      (fetchData true o st emptyEnv).state.data = none
      ∧ (fetchData true o st emptyEnv).state.error = none
      ∧ (fetchData true o st emptyEnv).result = Except.ok ()) := by
  constructor
  · intro o v st₁ st₂ st₃ env₁ env₂ env₃ hsave hremove
    rcases save_elim true o v st₁ env₁ with ⟨hf, _⟩ | ⟨e, env₅, _, _, heq⟩
      | ⟨c, env₅, e, _, _, _, heq⟩ | ⟨c, env₅, env₆, _, hg, hput, heq⟩
    · cases hf
    · rw [heq] at hsave
      simp at hsave
    · rw [heq] at hsave
      simp at hsave
    · rw [heq] at hsave
      injection hsave with h₁ h₂ h₃
      subst h₁
      subst h₂
      have hkey : alookup (cacheKey o.dbName o.version) env₅.cache = some (Except.ok c) :=
        getDB_cache_self o.dbName o.storeName o.version env₁ env₅ (Except.ok c) hg
      have hcacheP : env₆.cache = env₅.cache := dbPut_cache env₅ env₆ c o.storeName v o.key hput
      have hgd₂ : getDB o.dbName o.storeName o.version env₆ = (Except.ok c, env₆) :=
        getDB_cached o.dbName o.storeName o.version env₆ (Except.ok c) (hcacheP ▸ hkey)
      obtain ⟨env₇, hdel, hgetnone, hcacheD⟩ :=
        dbPut_dbDelete_dbGet env₅ env₆ c o.storeName v o.key hput
      rw [remove_eval o _ env₆ env₇ c hgd₂ hdel] at hremove
      injection hremove with g₁ g₂ g₃
      subst g₁
      subst g₂
      have hgd₃ : getDB o.dbName o.storeName o.version env₇ = (Except.ok c, env₇) :=
        getDB_cached o.dbName o.storeName o.version env₇ (Except.ok c)
          (by rw [hcacheD, hcacheP]; exact hkey)
      rw [fetchData_eval o _ env₇ c none hgd₃ hgetnone]
      exact ⟨rfl, rfl, rfl⟩
  · intro o st
    refine ⟨?_, ?_, ?_⟩ <;>
      simp [fetchData, getDB, openDB, dbGet, emptyEnv, alookup, upgradeRun, cacheKey]

/-- Witness for C6: the concrete save–remove–load cycle on a fresh process. -/
theorem C6_delete_clears_witness :
    ((save true ⟨"demo", "memos", "current-memo", 1⟩ (42 : Nat) initialLoadState emptyEnv).result
        = Except.ok ()
    ∧ (remove true ⟨"demo", "memos", "current-memo", 1⟩
        (save true ⟨"demo", "memos", "current-memo", 1⟩ (42 : Nat) initialLoadState emptyEnv).state
        (save true ⟨"demo", "memos", "current-memo", 1⟩ (42 : Nat) initialLoadState emptyEnv).env).result
        = Except.ok ())
    ∧ (fetchData true ⟨"demo", "memos", "current-memo", 1⟩
        (remove true ⟨"demo", "memos", "current-memo", 1⟩
          (save true ⟨"demo", "memos", "current-memo", 1⟩ (42 : Nat) initialLoadState emptyEnv).state
          (save true ⟨"demo", "memos", "current-memo", 1⟩ (42 : Nat) initialLoadState emptyEnv).env).state
        (remove true ⟨"demo", "memos", "current-memo", 1⟩
          (save true ⟨"demo", "memos", "current-memo", 1⟩ (42 : Nat) initialLoadState emptyEnv).state
          (save true ⟨"demo", "memos", "current-memo", 1⟩ (42 : Nat) initialLoadState emptyEnv).env).env).state.data
        = none :=
  ⟨⟨by decide, by decide⟩,
   ((C6_delete_clears.1 ⟨"demo", "memos", "current-memo", 1⟩ 42 initialLoadState
      (save true ⟨"demo", "memos", "current-memo", 1⟩ (42 : Nat) initialLoadState emptyEnv).state
      (remove true ⟨"demo", "memos", "current-memo", 1⟩
        (save true ⟨"demo", "memos", "current-memo", 1⟩ (42 : Nat) initialLoadState emptyEnv).state
        (save true ⟨"demo", "memos", "current-memo", 1⟩ (42 : Nat) initialLoadState emptyEnv).env).state
      emptyEnv
      (save true ⟨"demo", "memos", "current-memo", 1⟩ (42 : Nat) initialLoadState emptyEnv).env
      (remove true ⟨"demo", "memos", "current-memo", 1⟩
        (save true ⟨"demo", "memos", "current-memo", 1⟩ (42 : Nat) initialLoadState emptyEnv).state
        (save true ⟨"demo", "memos", "current-memo", 1⟩ (42 : Nat) initialLoadState emptyEnv).env).env
      (by decide) (by decide)).2).1⟩

/-- C10 (confirmed) — Theme toggle never yields `system`: from any state,
`toggleTheme` produces `light` or `dark`; returning to `system` is possible
via `setTheme` or `reset`. -/
theorem C10_toggle_never_system :
    ∀ (MD : Type) (mdEmpty : MD) (systemIsDark : Bool) (s : UIState MD),
      ((toggleTheme systemIsDark s).theme = Theme.light
        ∨ (toggleTheme systemIsDark s).theme = Theme.dark)
      ∧ (setTheme Theme.system s).theme = Theme.system
      ∧ (reset mdEmpty s).theme = Theme.system := by
  intro MD mdEmpty systemIsDark s
  refine ⟨?_, rfl, rfl⟩
  unfold toggleTheme
  by_cases h : s.theme = Theme.system
  · rw [if_pos h]
    cases systemIsDark <;> simp
  · rw [if_neg h]
    by_cases h₂ : s.theme = Theme.dark
    · rw [if_pos h₂]
      simp
    · rw [if_neg h₂]
      simp

/-- C3 counterexample: a load (`fetchData`) whose underlying store operation
fails (`NotFoundError`: the cached connection for `("d", 1)` has no store
`"s2"`) records the failure in `error` but **resolves normally** — the error
is not re-thrown to the caller, refuting the claim that every operation both
records and re-throws its failure. -/
theorem C3_error_propagation_cex :
    (fetchData true ⟨"d", "s2", "k", 1⟩ (initialLoadState (V := Nat))
        (getDB (V := Nat) "d" "s1" 1 emptyEnv).2).state.error = some "NotFoundError"
    ∧ (fetchData true ⟨"d", "s2", "k", 1⟩ (initialLoadState (V := Nat))
        (getDB (V := Nat) "d" "s1" 1 emptyEnv).2).result = Except.ok () := by
  decide

/-- C3 (corrected) — Error propagation: in the browser, `save` and `remove`
record a failure in `error` exactly when they re-throw it; `fetchData` (load
/ refresh) never re-throws — its promise always resolves — but it does record
the failure of its `getDB` or of its read in `error`.  No operation retries
(each issues its single underlying store call, as the case analyses above
show). -/
theorem C3_error_propagation_amended :
    (∀ (o : Options) (v : Nat) (st : LoadState Nat) (env : DBEnv Nat) (e : String),
        ((save true o v st env).result = Except.error e
          ↔ (save true o v st env).state.error = some e))
    ∧ (∀ (o : Options) (st : LoadState Nat) (env : DBEnv Nat) (e : String),
        ((remove true o st env).result = Except.error e
          ↔ (remove true o st env).state.error = some e))
    ∧ (∀ (hw : Bool) (o : Options) (st : LoadState Nat) (env : DBEnv Nat),
        (fetchData hw o st env).result = Except.ok ())
    ∧ (∀ (o : Options) (st : LoadState Nat) (env env₂ : DBEnv Nat) (e : String),
        getDB o.dbName o.storeName o.version env = (Except.error e, env₂) →
        (fetchData true o st env).state.error = some e)
    ∧ (∀ (o : Options) (st : LoadState Nat) (env env₂ : DBEnv Nat) (c : Conn) (e : String),
        getDB o.dbName o.storeName o.version env = (Except.ok c, env₂) →
        dbGet env₂ c o.storeName o.key = Except.error e →
        (fetchData true o st env).state.error = some e) := by
  refine ⟨?_, ?_, ?_, ?_, ?_⟩
  · intro o v st env e
    rcases save_elim true o v st env with ⟨hf, _⟩ | ⟨e₂, env₂, _, _, heq⟩
      | ⟨c, env₂, e₂, _, _, _, heq⟩ | ⟨c, env₂, env₃, _, _, _, heq⟩
    · cases hf
    · rw [heq]
      simp
    · rw [heq]
      simp
    · rw [heq]
      simp
  · intro o st env e
    rcases remove_elim true o st env with ⟨hf, _⟩ | ⟨e₂, env₂, _, _, heq⟩
      | ⟨c, env₂, e₂, _, _, _, heq⟩ | ⟨c, env₂, env₃, _, _, _, heq⟩
    · cases hf
    · rw [heq]
      simp
    · rw [heq]
      simp
    · rw [heq]
      simp
  · intro hw o st env
    rcases fetchData_elim hw o st env with ⟨_, heq⟩ | ⟨e₂, env₂, _, _, heq⟩
      | ⟨c, env₂, e₂, _, _, _, heq⟩ | ⟨c, env₂, w, _, _, _, heq⟩ <;> rw [heq]
  · intro o st env env₂ e hg
    rcases fetchData_elim true o st env with ⟨hf, _⟩ | ⟨e₂, env₃, _, hg₂, heq⟩
      | ⟨c, env₃, e₂, _, hg₂, _, heq⟩ | ⟨c, env₃, w, _, hg₂, _, heq⟩
    · cases hf
    · rw [hg] at hg₂
      simp only [Prod.mk.injEq, Except.error.injEq] at hg₂
      rw [heq, hg₂.1]
    · rw [hg] at hg₂
      simp at hg₂
    · rw [hg] at hg₂
      simp at hg₂
  · intro o st env env₂ c e hg hget
    rcases fetchData_elim true o st env with ⟨hf, _⟩ | ⟨e₂, env₃, _, hg₂, heq⟩
      | ⟨c₂, env₃, e₂, _, hg₂, hget₂, heq⟩ | ⟨c₂, env₃, w, _, hg₂, hget₂, heq⟩
    · cases hf
    · rw [hg] at hg₂
      simp at hg₂
    · rw [hg] at hg₂
      simp only [Prod.mk.injEq, Except.ok.injEq] at hg₂
      obtain ⟨rfl, rfl⟩ := hg₂
      rw [hget] at hget₂
      simp only [Except.error.injEq] at hget₂
      rw [heq, hget₂]
    · rw [hg] at hg₂
      simp only [Prod.mk.injEq, Except.ok.injEq] at hg₂
      obtain ⟨rfl, rfl⟩ := hg₂
      rw [hget] at hget₂
      simp at hget₂

/-- Witness for C3: the concrete failing load records `NotFoundError`. -/
theorem C3_error_propagation_witness :
    getDB (V := Nat) "d" "s2" 1 (getDB (V := Nat) "d" "s1" 1 emptyEnv).2
        = (Except.ok ⟨0, "d"⟩, (getDB (V := Nat) "d" "s1" 1 emptyEnv).2)
    ∧ dbGet (getDB (V := Nat) "d" "s1" 1 emptyEnv).2 ⟨0, "d"⟩ "s2" "k"
        = Except.error "NotFoundError"
    ∧ (fetchData true ⟨"d", "s2", "k", 1⟩ (initialLoadState (V := Nat))
        (getDB (V := Nat) "d" "s1" 1 emptyEnv).2).state.error = some "NotFoundError" :=
  ⟨by decide, by decide,
   C3_error_propagation_amended.2.2.2.2 ⟨"d", "s2", "k", 1⟩ initialLoadState
     (getDB (V := Nat) "d" "s1" 1 emptyEnv).2 (getDB (V := Nat) "d" "s1" 1 emptyEnv).2
     ⟨0, "d"⟩ "NotFoundError" (by decide) (by decide)⟩

/-- C7 counterexample: in the initial state of a hook instance — before any
operation has run (the operation trace is empty, so nothing is in flight) —
`isLoading` is already `true`, refuting "`isLoading` is true only while a
load/save/delete operation is in flight". -/
theorem C7_load_state_cex :
    (initialLoadState (V := Nat)).isLoading = true
    ∧ traceStates true ⟨"d", "s", "k", 1⟩ ([] : List (Op Nat)) initialLoadState emptyEnv
        = [] := by
  exact ⟨rfl, rfl⟩

/-- C7 (corrected) — LoadState invariant: `isLoading` is `true` in the
initial (mount) state before the first load completes; after the mount load,
every quiescent state of any operation trace has `isLoading = false`.  The
`error` field is overwritten at the start of every operation (its new value
never depends on the previous one); for `save`/`remove` it is non-null
exactly when the operation failed, and a failed load records its error while
leaving `data` unchanged. -/
theorem C7_load_state_amended :
    ((initialLoadState (V := Nat)).isLoading = true)
    ∧ (∀ (o : Options) (ops : List (Op Nat)) (env : DBEnv Nat) (st₂ : LoadState Nat),
        st₂ ∈ traceStates true o (Op.fetch :: ops) initialLoadState env →
        st₂.isLoading = false)
    ∧ (∀ (o : Options) (op : Op Nat) (st : LoadState Nat) (env : DBEnv Nat)
        (e₁ e₂ : Option String),
        runOp true o op { st with error := e₁ } env
          = runOp true o op { st with error := e₂ } env)
    ∧ (∀ (o : Options) (v : Nat) (st : LoadState Nat) (env : DBEnv Nat) (e : String),
        ((save true o v st env).result = Except.error e
          ↔ (save true o v st env).state.error = some e))
    ∧ (∀ (o : Options) (st : LoadState Nat) (env : DBEnv Nat) (e : String),
        ((remove true o st env).result = Except.error e
          ↔ (remove true o st env).state.error = some e))
    ∧ (∀ (o : Options) (st : LoadState Nat) (env : DBEnv Nat) (e : String),
        (fetchData true o st env).state.error = some e →
        (fetchData true o st env).state.data = st.data) := by
  refine ⟨rfl, ?_, ?_, ?_, ?_, ?_⟩
  · intro o ops env st₂ hmem
    simp only [traceStates, List.mem_cons] at hmem
    rcases hmem with rfl | hmem
    · exact fetchData_isLoading true o initialLoadState env
    · exact traceStates_isLoading o ops _ _
        (fetchData_isLoading true o initialLoadState env) st₂ hmem
  · intro o op st env e₁ e₂
    cases op <;> rfl
  · intro o v st env e
    rcases save_elim true o v st env with ⟨hf, _⟩ | ⟨e₂, env₂, _, _, heq⟩
      | ⟨c, env₂, e₂, _, _, _, heq⟩ | ⟨c, env₂, env₃, _, _, _, heq⟩
    · cases hf
    · rw [heq]
      simp
    · rw [heq]
      simp
    · rw [heq]
      simp
  · intro o st env e
    rcases remove_elim true o st env with ⟨hf, _⟩ | ⟨e₂, env₂, _, _, heq⟩
      | ⟨c, env₂, e₂, _, _, _, heq⟩ | ⟨c, env₂, env₃, _, _, _, heq⟩
    · cases hf
    · rw [heq]
      simp
    · rw [heq]
      simp
    · rw [heq]
      simp
  · intro o st env e herr
    rcases fetchData_elim true o st env with ⟨hf, _⟩ | ⟨e₂, env₂, _, _, heq⟩
      | ⟨c, env₂, e₂, _, _, _, heq⟩ | ⟨c, env₂, w, _, _, _, heq⟩
    · cases hf
    · rw [heq]
    · rw [heq]
    · rw [heq] at herr
      simp at herr

/-- Witness for C7: after the mount load on a fresh process, the quiescent
state is not loading. -/
theorem C7_load_state_witness :
    ((fetchData true ⟨"demo", "memos", "k", 1⟩ (initialLoadState (V := Nat)) emptyEnv).state
        ∈ traceStates true ⟨"demo", "memos", "k", 1⟩ [Op.fetch]
          (initialLoadState (V := Nat)) emptyEnv)
    ∧ (fetchData true ⟨"demo", "memos", "k", 1⟩ (initialLoadState (V := Nat))
        emptyEnv).state.isLoading = false :=
  ⟨by decide,
   C7_load_state_amended.2.1 ⟨"demo", "memos", "k", 1⟩ [] emptyEnv
     (fetchData true ⟨"demo", "memos", "k", 1⟩ (initialLoadState (V := Nat)) emptyEnv).state
     (by decide)⟩

/-- C9 counterexample: for status 418 with a parseable body that has no
usable `message` field, the produced message is the fixed unknown-error
string — it is neither "taken from the server response body" (the body has no
message, as `claimedOtherMessage` shows) nor the status text — refuting the
claimed mapping for non-fixed statuses. -/
theorem C9_error_mapping_cex :
    respOk 418 = false
    ∧ (418 ≠ 401 ∧ 418 ≠ 403 ∧ 418 ≠ 404 ∧ 418 ≠ 500)
    ∧ interceptError ⟨418, "Teapot", some none⟩ = some ⟨418, unknownErrMsg, "ApiError"⟩
    ∧ claimedOtherMessage ⟨418, "Teapot", some none⟩ ≠ some unknownErrMsg
    ∧ unknownErrMsg ≠ "Teapot" := by
  decide

/-- C9 (corrected) — Transport error message mapping: every non-2xx response
throws an `ApiError` carrying the response status; the message is the fixed
string for 401/403/404/500; for any other status it is the body's `message`
when present and non-empty, the fixed unknown-error string when the body
parses without a usable message, the status text when the body cannot be
parsed and the status text is non-empty, and the fixed parse-failure string
otherwise. -/
theorem C9_error_mapping_amended :
    ∀ r : Resp, respOk r.status = false →
      interceptError r = some (createApiError r.status (parseErrorResponse r))
      ∧ (createApiError r.status (parseErrorResponse r)).status = r.status
      ∧ (createApiError r.status (parseErrorResponse r)).name = "ApiError"
      ∧ (r.status = 401 → (createApiError r.status (parseErrorResponse r)).message
          = "인증이 필요합니다. 다시 로그인해주세요.")
      ∧ (r.status = 403 → (createApiError r.status (parseErrorResponse r)).message
          = "접근 권한이 없습니다.")
      ∧ (r.status = 404 → (createApiError r.status (parseErrorResponse r)).message
          = "요청한 리소스를 찾을 수 없습니다.")
      ∧ (r.status = 500 → (createApiError r.status (parseErrorResponse r)).message
          = "서버 오류가 발생했습니다. 잠시 후 다시 시도해주세요.")
      ∧ (r.status ≠ 401 → r.status ≠ 403 → r.status ≠ 404 → r.status ≠ 500 →
          (∀ m : String, r.body = some (some m) → m ≠ "" →
            (createApiError r.status (parseErrorResponse r)).message = m)
          ∧ ((r.body = some none ∨ r.body = some (some "")) →
            (createApiError r.status (parseErrorResponse r)).message = unknownErrMsg)
          ∧ (r.body = none → r.statusText ≠ "" →
            (createApiError r.status (parseErrorResponse r)).message = r.statusText)
          ∧ (r.body = none → r.statusText = "" →
            (createApiError r.status (parseErrorResponse r)).message = parseFailMsg)) := by
  intro r hok
  refine ⟨by simp [interceptError, hok], ?_, ?_, ?_, ?_, ?_, ?_, ?_⟩
  · unfold createApiError
    split_ifs <;> rfl
  · unfold createApiError
    split_ifs <;> rfl
  · intro h
    simp [createApiError, h]
  · intro h
    simp [createApiError, h]
  · intro h
    simp [createApiError, h]
  · intro h
    simp [createApiError, h]
  · intro h₁ h₂ h₃ h₄
    have hbase : ∀ msg : String, (createApiError r.status msg).message = msg := by
      intro msg
      simp [createApiError, h₁, h₂, h₃, h₄]
    refine ⟨?_, ?_, ?_, ?_⟩
    · intro m hm hne
      rw [hbase]
      simp [parseErrorResponse, hm, hne]
    · intro hb
      rw [hbase]
      rcases hb with hb | hb <;> simp [parseErrorResponse, hb]
    · intro hb hne
      rw [hbase]
      simp [parseErrorResponse, hb, hne]
    · intro hb hne
      rw [hbase]
      simp [parseErrorResponse, hb, hne]

/-- Witness for C9: a 418 response with body message `"boom"` maps to the
message `"boom"`. -/
theorem C9_error_mapping_witness :
    respOk 418 = false
    ∧ (createApiError 418 (parseErrorResponse ⟨418, "Teapot", some (some "boom")⟩)).message
        = "boom" :=
  ⟨by decide,
   ((C9_error_mapping_amended ⟨418, "Teapot", some (some "boom")⟩ (by decide)).2.2.2.2.2.2.2
      (by decide) (by decide) (by decide) (by decide)).1 "boom" rfl (by decide)⟩

end Tpl
